import Mathlib

/-!
Shallow embedding of progress.go from the clt repository: in-place
terminal progress indicators (spinner, bar, loading message).

Each background renderer is modelled as a function from the sequence of
channel events it consumes to the list of strings it writes to the
output sink, in order.  Go float64 values are modelled as rationals
(every comparison the code performs is against the exactly representable
values -1.0, -2.0, 0.0 and 1.0), Go int as Int or Nat where the source
guarantees non-negativity, and the buffered numeric channel as a queue
with an explicit capacity.
-/

namespace Clt

/-- Colour tags used by the renderers (Green and Red in the source). -/
inductive Color
  | green
  | red
deriving DecidableEq

/-- Modelled from the spec: the opaque text-styling collaborator
style(text, color) -> decoratedText.  The repository's styling code
(Styled(...).ApplyTo) is outside the rendering core, so renderers take
the styling function as an abstract argument. -/
def StyleFn : Type := Color → String → String

/-- Control-channel values (const success = 0, fail = 1 in progress.go). -/
inductive CtrlMsg
  | success
  | fail
deriving DecidableEq

/-- Indicator styles (const spinner, bar, loading in progress.go). -/
inductive Style
  | spinner
  | bar
  | loading
deriving DecidableEq

/-- A value sent by Success or Fail on one of the two channels of a
Progress value: either on the int channel c or on the float64 channel cf. -/
inductive SentSignal
  | onC (m : CtrlMsg)
  | onCf (v : ℚ)
deriving DecidableEq

/-- Predefined Wheel spinner frames (progress.go:28). -/
def Wheel : List String := ["|", "/", "-", "\\"]

/-- Predefined Bouncing spinner frames (progress.go:30). -/
def Bouncing : List String := ["⠁", "⠂", "⠄", "⠂"]

/-- Predefined Dots spinner frames (progress.go:34). -/
def Dots : List String := ["⠋", "⠙", "⠹", "⠸", "⠼", "⠴", "⠦", "⠧", "⠇", "⠏"]

/-- Go len() of a string: its UTF-8 byte count. -/
def utf8Len (s : String) : Nat := s.utf8ByteSize

/-- Go strings.Repeat on a one-character string (every call site in
renderBar and renderLoading repeats a single ASCII character). -/
def repeatChar (c : Char) (n : Nat) : String := String.mk (List.replicate n c)

/-- Go conversion int(q) of a float64 q: truncation toward zero. -/
def goTrunc (q : ℚ) : ℤ := if 0 ≤ q then ⌊q⌋ else ⌈q⌉

/-- Go fmt %.0f rounding: nearest integer, ties to even. -/
def roundHalfEven (q : ℚ) : ℤ :=
  if q - ⌊q⌋ < 1/2 then ⌊q⌋
  else if 1/2 < q - ⌊q⌋ then ⌊q⌋ + 1
  else if ⌊q⌋ % 2 = 0 then ⌊q⌋ else ⌊q⌋ + 1

/-- Go fmt %2.0f of a float64: rounded integer, right-aligned to a
minimum width of 2. -/
def pctText (q : ℚ) : String :=
  let s := toString (roundHalfEven q)
  if s.length < 2 then " " ++ s else s

/-- Update (progress.go:288-295): clamps its argument from above only
(pct >= 1.0 becomes 1.0) and returns the value it then sends on cf. -/
def update (pct : ℚ) : ℚ := if 1 ≤ pct then 1 else pct

/-- Value Success (progress.go:121-141) sends, by style: success on c
for spinner and loading, the sentinel -1.0 on cf for bar.  Success then
waits on the lifecycle barrier and closes the channel. -/
def successSend : Style → SentSignal
  | .spinner => .onC .success
  | .bar => .onCf (-1)
  | .loading => .onC .success

/-- Value Fail (progress.go:145-166) sends, by style: fail on c for
spinner, the sentinel -2.0 on cf for bar, and success on c for loading
(the source comment: loading only has one termination state). -/
def failSend : Style → SentSignal
  | .spinner => .onC .fail
  | .bar => .onCf (-2)
  | .loading => .onC .success

/-- spinLookup (progress.go:251-253): cyclic frame lookup
steps[i mod len(steps)].  Go panics on an empty slice; the default ""
is never reached for the non-empty frame sequences the package uses. -/
def spinLookup (i : Nat) (steps : List String) : String :=
  steps.getD (i % steps.length) ""

/-- eqLen computed by renderBar (progress.go:262):
int(result * float64(DisplayLength)). -/
def barEqLen (result : ℚ) (displayLength : Nat) : ℤ :=
  goTrunc (result * displayLength)

/-- Terminal success frame of renderBar (progress.go:267): a full bar
of '=' and a green "100%" marker. -/
def barSuccessFrame (st : StyleFn) (prompt : String) (displayLength : Nat) : String :=
  "\x1b[?25l\r" ++ prompt ++ ": [" ++ repeatChar '=' displayLength ++ "] "
    ++ st .green "100%"

/-- Terminal failure frame of renderBar (progress.go:273): a full bar
of 'X' and a red "FAIL" marker. -/
def barFailFrame (st : StyleFn) (prompt : String) (displayLength : Nat) : String :=
  "\x1b[?25l\r" ++ prompt ++ ": [" ++ repeatChar 'X' displayLength ++ "] "
    ++ st .red "FAIL"

/-- Write renderBar emits after a terminal frame (progress.go:269
and 275): show the cursor and move to the next line. -/
def barShowCursorNl : String := "\x1b[?25h\n"

/-- Progress frame of renderBar (progress.go:279) for a received value
result >= 0: eqLen fill characters, spLen = DisplayLength - eqLen
spaces (progress.go:263), and the rounded percentage.  The Int.toNat
coercions are exact on every value the API can put on the channel
(0 <= result <= 1, hence 0 <= eqLen <= DisplayLength); outside that
range Go strings.Repeat would panic on a negative count. -/
def barProgressFrame (prompt : String) (displayLength : Nat) (result : ℚ) : String :=
  "\x1b[?25l\r" ++ prompt ++ ": ["
    ++ repeatChar '=' (barEqLen result displayLength).toNat
    ++ repeatChar ' ' ((displayLength : ℤ) - barEqLen result displayLength).toNat
    ++ "] " ++ pctText (100 * result) ++ "%"

/-- renderBar (progress.go:255-284) as a write trace: consumes the
list of values received from cf until it returns (on a sentinel) or
the channel is closed (end of list).  Cases in source order:
result == -1.0, result == -2.0, result >= 0.0; any other value draws
nothing and the loop continues. -/
def renderBar (st : StyleFn) (prompt : String) (displayLength : Nat) : List ℚ → List String
  | [] => []
  | result :: rest =>
    if result = -1 then [barSuccessFrame st prompt displayLength, barShowCursorNl]
    else if result = -2 then [barFailFrame st prompt displayLength, barShowCursorNl]
    else if 0 ≤ result then
      barProgressFrame prompt displayLength result
        :: renderBar st prompt displayLength rest
    else renderBar st prompt displayLength rest

/-- dotLen computed by renderSpinner (progress.go:190-193):
DisplayLength - len(Prompt), floored at 3.  Both operands are Go ints,
so the subtraction may go negative before the floor applies. -/
def spinnerDotLen (displayLength : ℤ) (prompt : String) : ℤ :=
  if displayLength - (utf8Len prompt : ℤ) < 3 then 3
  else displayLength - (utf8Len prompt : ℤ)

/-- Animation frame of renderSpinner (progress.go:210). -/
def spinnerLoopFrame (prompt : String) (steps : List String) (i : Nat) : String :=
  "\x1b[?25l\r" ++ prompt ++ "[" ++ spinLookup i steps ++ "]"

/-- Terminal frame of renderSpinner (progress.go:200 and 204). -/
def spinnerTerminalFrame (st : StyleFn) (prompt : String) : CtrlMsg → String
  | .success => "\x1b[?25h\r" ++ prompt ++ "[" ++ st .green "OK" ++ "]\n"
  | .fail => "\x1b[?25h\r" ++ prompt ++ "[" ++ st .red "FAIL" ++ "]\n"

/-- Sleep between spinner frames (progress.go:212), in milliseconds. -/
def spinnerTickMs : Nat := 100

/-- renderSpinner (progress.go:182-215) as a write trace: k polls find
the control channel empty and draw an animation frame each, then a
received msg draws the terminal frame and the loop returns. -/
def renderSpinner (st : StyleFn) (prompt : String) (steps : List String)
    (k : Nat) (msg : CtrlMsg) : List String :=
  (List.range k).map (spinnerLoopFrame prompt steps)
    ++ [spinnerTerminalFrame st prompt msg]

/-- Outcome of the race (progress.go:225-233) between the delay ticker
and the control channel when delay > 0. -/
inductive Gate
  | signalFirst
  | timerFirst
deriving DecidableEq

/-- Sleep between loading frames (progress.go:246), in milliseconds. -/
def loadingTickMs : Nat := 250

/-- Animation frame of renderLoading (progress.go:244). -/
def loadingLoopFrame (prompt : String) (steps : List String) (i : Nat) : String :=
  "\x1b[?25l\r" ++ spinLookup i steps ++ "  " ++ prompt

/-- Space count of the erase write (progress.go:239):
len(spinsteps[0]) + len(Prompt) + 3.  Go indexes spinsteps[0] and
panics on an empty frame sequence; headD supplies "" there. -/
def loadingEraseLen (prompt : String) (steps : List String) : Nat :=
  utf8Len (steps.headD "") + utf8Len prompt + 3

/-- Erase write of renderLoading (progress.go:239): overwrite the line
with spaces and move to the next line. -/
def loadingErase (prompt : String) (steps : List String) : String :=
  "\x1b[?25l\r" ++ repeatChar ' ' (loadingEraseLen prompt steps) ++ "\r\n"

/-- Visible loop of renderLoading (progress.go:235-248): k empty polls
draw an animation frame each, then a signal draws the erase write and
the loop returns.  The received control value is discarded unread. -/
def loadingLoopWrites (prompt : String) (steps : List String) (k : Nat) : List String :=
  (List.range k).map (loadingLoopFrame prompt steps)
    ++ [loadingErase prompt steps]

/-- renderLoading (progress.go:217-249) as a write trace.  With a
positive delay the renderer first races the control channel against a
ticker of that delay: if the signal wins it returns having written
nothing; otherwise, and with zero delay, it runs the visible loop.
msg is the control value consumed at the end; the source discards it,
so it does not influence the trace. -/
def renderLoading (prompt : String) (steps : List String) (delay : Nat)
    (gate : Gate) (k : Nat) (msg : CtrlMsg) : List String :=
  if 0 < delay then
    match gate with
    | .signalFirst => []
    | .timerFirst => loadingLoopWrites prompt steps k
  else loadingLoopWrites prompt steps k

/-- A buffered Go channel: its capacity and queued contents. -/
structure GoChan (α : Type) where
  cap : Nat
  buf : List α
deriving DecidableEq

/-- make(chan α, cap): an empty buffer. -/
def chanMake (α : Type) (cap : Nat) : GoChan α := ⟨cap, []⟩

/-- A buffered send: enqueues when a buffer slot is free, otherwise
blocks (modelled as none). -/
def chanSend {α : Type} (ch : GoChan α) (v : α) : Option (GoChan α) :=
  if ch.buf.length < ch.cap then some ⟨ch.cap, ch.buf ++ [v]⟩ else none

/-- State Start produces for the bar style. -/
structure BarStartState where
  cf : GoChan ℚ
  renderTasks : Nat
deriving DecidableEq

/-- Start for the bar style (progress.go:109-112): make cf with buffer
depth 2, launch one renderBar task, then send the initial 0.0.  A none
result would mean the initial send blocked. -/
def startBar : Option BarStartState :=
  (chanSend (chanMake ℚ 2) 0).map fun ch => ⟨ch, 1⟩

/-! Helper lemmas. -/

theorem data_append (s t : String) : (s ++ t).data = s.data ++ t.data := by
  cases s; cases t; rfl

theorem mk_data (l : List Char) : (String.mk l).data = l := rfl

theorem hide_r_split : "\x1b[?25l\r".data = "\x1b[?25l".data ++ ['\r'] := by decide

theorem show_r_split : "\x1b[?25h\r".data = "\x1b[?25h".data ++ ['\r'] := by decide

theorem repeatChar_length (c : Char) (n : Nat) : (repeatChar c n).length = n := by
  simp [repeatChar, String.length, mk_data]

/-- A write that starts with the hide-cursor sequence and has no
further escape character cannot contain the show-cursor sequence. -/
theorem esc_write_no_show (rest : List Char) (hrest : '\x1b' ∉ rest) :
    ¬ ∃ s t, "\x1b[?25l".data ++ rest = s ++ ("\x1b[?25h".data ++ t) := by
  rintro ⟨s, t, heq⟩
  have h6 : "\x1b[?25l".data = '\x1b' :: "[?25l".data := by decide
  have h7 : "\x1b[?25h".data = '\x1b' :: "[?25h".data := by decide
  rw [h6, h7] at heq
  cases s with
  | nil =>
    simp only [List.nil_append, List.cons_append, List.cons.injEq, true_and] at heq
    exact absurd heq.1 (by decide)
  | cons c s2 =>
    simp only [List.cons_append, List.cons.injEq] at heq
    have hmem : '\x1b' ∈ s2 ++ '\x1b' :: '[' :: '?' :: '2' :: '5' :: 'h' :: ([] ++ t) :=
      List.mem_append_right _ (List.mem_cons_self _ _)
    rw [← heq.2] at hmem
    simp only [List.nil_append, List.mem_cons] at hmem
    rcases hmem with hm | hm | hm | hm | hm | hm
    · exact absurd hm (by decide)
    · exact absurd hm (by decide)
    · exact absurd hm (by decide)
    · exact absurd hm (by decide)
    · exact absurd hm (by decide)
    · exact hrest hm

theorem loadingLoopFrame_data (prompt : String) (steps : List String) (i : Nat) :
    (loadingLoopFrame prompt steps i).data =
      "\x1b[?25l".data
        ++ ('\r' :: ((spinLookup i steps).data ++ ("  ".data ++ prompt.data))) := by
  simp only [loadingLoopFrame, data_append, hide_r_split, List.append_assoc,
    List.singleton_append, List.cons_append, List.nil_append]

theorem loadingErase_data (prompt : String) (steps : List String) :
    (loadingErase prompt steps).data =
      "\x1b[?25l".data
        ++ ('\r' :: (List.replicate (loadingEraseLen prompt steps) ' ' ++ "\r\n".data)) := by
  simp only [loadingErase, repeatChar, mk_data, data_append, hide_r_split,
    List.append_assoc, List.singleton_append, List.cons_append, List.nil_append]

theorem esc_not_mem_spinLookup (steps : List String)
    (hs : ∀ f ∈ steps, '\x1b' ∉ f.data) (i : Nat) :
    '\x1b' ∉ (spinLookup i steps).data := by
  unfold spinLookup
  rcases Nat.lt_or_ge (i % steps.length) steps.length with h | h
  · rw [List.getD_eq_getElem steps "" h]
    exact hs _ (List.getElem_mem h)
  · rw [List.getD_eq_default steps "" h]
    decide

/-- Every write of the visible loading loop starts with hide-cursor
and never contains show-cursor (for escape-free label and frames). -/
theorem loading_write_shape (prompt : String) (steps : List String)
    (hp : '\x1b' ∉ prompt.data) (hs : ∀ f ∈ steps, '\x1b' ∉ f.data)
    (k : Nat) (w : String) (hw : w ∈ loadingLoopWrites prompt steps k) :
    (∃ t, w.data = "\x1b[?25l".data ++ t)
      ∧ ¬ ∃ s t, w.data = s ++ ("\x1b[?25h".data ++ t) := by
  unfold loadingLoopWrites at hw
  rcases List.mem_append.mp hw with hmem | hmem
  · obtain ⟨i, _, rfl⟩ := List.mem_map.mp hmem
    refine ⟨⟨_, loadingLoopFrame_data prompt steps i⟩, ?_⟩
    rw [loadingLoopFrame_data]
    apply esc_write_no_show
    intro hmem2
    rcases List.mem_cons.mp hmem2 with hm | hm
    · exact absurd hm (by decide)
    rcases List.mem_append.mp hm with hm2 | hm2
    · exact esc_not_mem_spinLookup steps hs i hm2
    rcases List.mem_append.mp hm2 with hm3 | hm3
    · exact absurd hm3 (by decide)
    · exact hp hm3
  · rw [List.mem_singleton] at hmem
    subst hmem
    refine ⟨⟨_, loadingErase_data prompt steps⟩, ?_⟩
    rw [loadingErase_data]
    apply esc_write_no_show
    intro hmem2
    rcases List.mem_cons.mp hmem2 with hm | hm
    · exact absurd hm (by decide)
    rcases List.mem_append.mp hm with hm2 | hm2
    · exact absurd (List.eq_of_mem_replicate hm2) (by decide)
    · exact absurd hm2 (by decide)

/-- renderBar maps a block of nonnegative values to progress frames
and keeps consuming the channel. -/
theorem renderBar_progress_block (st : StyleFn) (prompt : String) (W : Nat)
    (vs : List ℚ) (h : ∀ v ∈ vs, 0 ≤ v) (rest : List ℚ) :
    renderBar st prompt W (vs ++ rest) =
      vs.map (barProgressFrame prompt W) ++ renderBar st prompt W rest := by
  induction vs with
  | nil => simp
  | cons v vs ih =>
    have hv : (0:ℚ) ≤ v := h v (List.mem_cons_self v vs)
    have h1 : ¬ v = -1 := by intro hh; rw [hh] at hv; norm_num at hv
    have h2 : ¬ v = -2 := by intro hh; rw [hh] at hv; norm_num at hv
    have hstep : renderBar st prompt W (v :: (vs ++ rest)) =
        barProgressFrame prompt W v :: renderBar st prompt W (vs ++ rest) := by
      simp [renderBar, h1, h2, hv]
    rw [List.cons_append, hstep, ih (fun u hu => h u (List.mem_cons_of_mem v hu))]
    simp

/-- Every value sent by Update or by Start is nonnegative when the
caller passes nonnegative fractions. -/
theorem update_list_nonneg (fs : List ℚ) (h : ∀ f ∈ fs, 0 ≤ f) :
    ∀ v ∈ (0 :: fs.map update), (0:ℚ) ≤ v := by
  intro v hv
  rcases List.mem_cons.mp hv with h0 | hm
  · exact h0.ge
  · obtain ⟨f, hf, rfl⟩ := List.mem_map.mp hm
    unfold update
    split
    · exact zero_le_one
    · exact h f hf

/-! Claims. -/

/-- Claim C1, counterexample: Update(-3.0) is forwarded as -3.0, not
clamped to min(max(-3,0),1) = 0, and the bar renderer then draws no
progress line at all for it (a fill of floor(0 * displayWidth) = 0
would still draw a frame of spaces). -/
theorem C1_counterexample :
    update (-3) = -3
    ∧ ¬ update (-3) = min (max (-3 : ℚ) 0) 1
    ∧ renderBar (fun _ s => s) "U" 2 [update (-3)] = [] := by
  have h : update (-3 : ℚ) = -3 := by norm_num [update]
  refine ⟨h, ?_, ?_⟩
  · rw [h]; norm_num
  · rw [h]; norm_num [renderBar]

/-- Claim C1 (amended): Update clamps its fraction from above only
(f >= 1 becomes 1, everything below 1 is forwarded unchanged), and for
every nonnegative f the progress line drawn by the bar renderer has a
fill length equal to floor(min(max(f,0),1) * displayWidth). -/
theorem C1_theorem (f : ℚ) (W : Nat) (h : 0 ≤ f) :
    update f = min f 1
    ∧ barEqLen (update f) W = ⌊min (max f 0) 1 * (W : ℚ)⌋
    ∧ ∀ st prompt,
        renderBar st prompt W [update f] = [barProgressFrame prompt W (update f)] := by
  have hupd : update f = min f 1 := by
    unfold update
    split
    · exact (min_eq_right (by assumption)).symm
    · exact (min_eq_left (le_of_lt (lt_of_not_ge (by assumption)))).symm
  have hmin0 : (0:ℚ) ≤ min f 1 := le_min h zero_le_one
  refine ⟨hupd, ?_, ?_⟩
  · rw [hupd, max_eq_left h]
    unfold barEqLen goTrunc
    rw [if_pos (mul_nonneg hmin0 (Nat.cast_nonneg W))]
  · intro st prompt
    have h1 : ¬ (min f 1) = -1 := by
      intro hh; rw [hh] at hmin0; norm_num at hmin0
    have h2 : ¬ (min f 1) = -2 := by
      intro hh; rw [hh] at hmin0; norm_num at hmin0
    rw [hupd]
    simp [renderBar, h1, h2, hmin0]

/-- Claim C1, witness at f = 3, displayWidth = 20. -/
theorem C1_witness :
    (0 : ℚ) ≤ 3
    ∧ (update 3 = min (3:ℚ) 1
       ∧ barEqLen (update 3) 20 = ⌊min (max (3:ℚ) 0) 1 * (20 : ℚ)⌋
       ∧ ∀ st prompt,
           renderBar st prompt 20 [update 3] = [barProgressFrame prompt 20 (update 3)]) :=
  ⟨by decide, C1_theorem 3 20 (by decide)⟩

/-- Claim C2: a negative argument to Update is forwarded unclamped;
-1.0 makes the bar renderer draw the terminal success frame and exit,
-2.0 the terminal failure frame, and any other negative value draws
nothing while the loop continues. -/
theorem C2_theorem (st : StyleFn) (prompt : String) (W : Nat)
    (f : ℚ) (h : f < 0) (rest : List ℚ) :
    update f = f
    ∧ (f = -1 →
        renderBar st prompt W (f :: rest) =
          [barSuccessFrame st prompt W, barShowCursorNl])
    ∧ (f = -2 →
        renderBar st prompt W (f :: rest) =
          [barFailFrame st prompt W, barShowCursorNl])
    ∧ (¬ f = -1 → ¬ f = -2 →
        renderBar st prompt W (f :: rest) = renderBar st prompt W rest) := by
  refine ⟨?_, ?_, ?_, ?_⟩
  · unfold update
    exact if_neg (not_le.mpr (lt_trans h zero_lt_one))
  · intro hf; subst hf; simp [renderBar]
  · intro hf; subst hf; norm_num [renderBar]
  · intro h1 h2
    have h3 : ¬ (0:ℚ) ≤ f := not_le.mpr h
    simp [renderBar, h1, h2, h3]

/-- Claim C2, witness at f = -2 (the failure sentinel collision). -/
theorem C2_witness :
    (-2 : ℚ) < 0
    ∧ (update (-2) = -2
       ∧ ((-2 : ℚ) = -1 →
           renderBar (fun _ s => s) "U" 3 ((-2 : ℚ) :: []) =
             [barSuccessFrame (fun _ s => s) "U" 3, barShowCursorNl])
       ∧ ((-2 : ℚ) = -2 →
           renderBar (fun _ s => s) "U" 3 ((-2 : ℚ) :: []) =
             [barFailFrame (fun _ s => s) "U" 3, barShowCursorNl])
       ∧ (¬ (-2 : ℚ) = -1 → ¬ (-2 : ℚ) = -2 →
           renderBar (fun _ s => s) "U" 3 ((-2 : ℚ) :: []) =
             renderBar (fun _ s => s) "U" 3 [])) :=
  ⟨by decide, C2_theorem (fun _ s => s) "U" 3 (-2) (by decide) []⟩

/-- Claim C3, counterexample: after Update(-2.0) the renderer has
already drawn the failure frame and exited, so Success's sentinel is
never rendered and the final frame is the failure frame. -/
theorem C3_counterexample :
    renderBar (fun _ s => s) "U" 2 ((0 :: [(-2 : ℚ)].map update) ++ (-1 :: [])) =
      [barProgressFrame "U" 2 0, barFailFrame (fun _ s => s) "U" 2, barShowCursorNl]
    ∧ ¬ barFailFrame (fun _ s => s) "U" 2 = barSuccessFrame (fun _ s => s) "U" 2 := by
  constructor
  · have h : update (-2 : ℚ) = -2 := by norm_num [update]
    simp only [List.map_cons, List.map_nil, h, List.cons_append, List.nil_append]
    norm_num [renderBar]
  · decide

/-- Claim C3 (amended): calling Success on a Bar controller after any
sequence of Update calls with nonnegative arguments draws a final
frame with a fully filled bar of exactly displayWidth '=' characters
and a success-styled "100%" marker, restores cursor visibility, emits
a line break, and exits, regardless of the last submitted fraction. -/
theorem C3_theorem (st : StyleFn) (prompt : String) (W : Nat) (fs : List ℚ)
    (h : ∀ f ∈ fs, 0 ≤ f) (rest : List ℚ) :
    renderBar st prompt W ((0 :: fs.map update) ++ (-1 :: rest)) =
      (0 :: fs.map update).map (barProgressFrame prompt W)
        ++ [barSuccessFrame st prompt W, barShowCursorNl]
    ∧ (repeatChar '=' W).length = W
    ∧ (∀ c ∈ (repeatChar '=' W).data, c = '=')
    ∧ barShowCursorNl = "\x1b[?25h\n" := by
  refine ⟨?_, repeatChar_length '=' W, ?_, rfl⟩
  · rw [renderBar_progress_block st prompt W _ (update_list_nonneg fs h)]
    simp [renderBar]
  · intro c hc
    exact List.eq_of_mem_replicate (by simpa [repeatChar, mk_data] using hc)

/-- Claim C3, witness: the spec scenario with Update values 0 and 1. -/
theorem C3_witness :
    (∀ f ∈ [(0 : ℚ), 1], 0 ≤ f)
    ∧ (renderBar (fun _ s => s) "Uploading" 20 ((0 :: [(0 : ℚ), 1].map update) ++ (-1 :: [])) =
        (0 :: [(0 : ℚ), 1].map update).map (barProgressFrame "Uploading" 20)
          ++ [barSuccessFrame (fun _ s => s) "Uploading" 20, barShowCursorNl]
       ∧ (repeatChar '=' 20).length = 20
       ∧ (∀ c ∈ (repeatChar '=' 20).data, c = '=')
       ∧ barShowCursorNl = "\x1b[?25h\n") :=
  ⟨by decide, C3_theorem (fun _ s => s) "Uploading" 20 [0, 1] (by decide) []⟩

/-- Claim C4, counterexample: after Update(-1.0) the renderer has
already drawn the success frame and exited, so Fail's sentinel is
never rendered and the final frame shows success, not failure. -/
theorem C4_counterexample :
    renderBar (fun _ s => s) "U" 2 ((0 :: [(-1 : ℚ)].map update) ++ (-2 :: [])) =
      [barProgressFrame "U" 2 0, barSuccessFrame (fun _ s => s) "U" 2, barShowCursorNl]
    ∧ ¬ barSuccessFrame (fun _ s => s) "U" 2 = barFailFrame (fun _ s => s) "U" 2 := by
  constructor
  · have h : update (-1 : ℚ) = -1 := by norm_num [update]
    simp only [List.map_cons, List.map_nil, h, List.cons_append, List.nil_append]
    norm_num [renderBar]
  · decide

/-- Claim C4 (amended): Fail draws a final failure frame — on a Bar
controller whose prior Update arguments were all nonnegative, a bar of
exactly displayWidth 'X' characters with a failure-styled "FAIL"
marker; on a Spinner controller, unconditionally, the terminal line
label[FAIL] with a failure-styled marker. -/
theorem C4_theorem (st : StyleFn) (prompt : String) (steps : List String) (W k : Nat)
    (fs : List ℚ) (h : ∀ f ∈ fs, 0 ≤ f) (rest : List ℚ) :
    failSend .bar = .onCf (-2)
    ∧ failSend .spinner = .onC .fail
    ∧ (renderSpinner st prompt steps k .fail).getLast? =
        some ("\x1b[?25h\r" ++ prompt ++ "[" ++ st .red "FAIL" ++ "]\n")
    ∧ renderBar st prompt W ((0 :: fs.map update) ++ (-2 :: rest)) =
        (0 :: fs.map update).map (barProgressFrame prompt W)
          ++ [barFailFrame st prompt W, barShowCursorNl]
    ∧ (repeatChar 'X' W).length = W
    ∧ (∀ c ∈ (repeatChar 'X' W).data, c = 'X') := by
  refine ⟨rfl, rfl, ?_, ?_, repeatChar_length 'X' W, ?_⟩
  · unfold renderSpinner
    rw [List.getLast?_concat]
    rfl
  · rw [renderBar_progress_block st prompt W _ (update_list_nonneg fs h)]
    norm_num [renderBar]
  · intro c hc
    exact List.eq_of_mem_replicate (by simpa [repeatChar, mk_data] using hc)

/-- Claim C4, witness with Update values 0 and 1 and two spinner polls. -/
theorem C4_witness :
    (∀ f ∈ [(0 : ℚ), 1], 0 ≤ f)
    ∧ (failSend .bar = .onCf (-2)
       ∧ failSend .spinner = .onC .fail
       ∧ (renderSpinner (fun _ s => s) "Connecting" Wheel 2 .fail).getLast? =
           some ("\x1b[?25h\r" ++ "Connecting" ++ "["
             ++ (fun (_ : Color) (s : String) => s) .red "FAIL" ++ "]\n")
       ∧ renderBar (fun _ s => s) "Connecting" 20 ((0 :: [(0 : ℚ), 1].map update) ++ (-2 :: [])) =
           (0 :: [(0 : ℚ), 1].map update).map (barProgressFrame "Connecting" 20)
             ++ [barFailFrame (fun _ s => s) "Connecting" 20, barShowCursorNl]
       ∧ (repeatChar 'X' 20).length = 20
       ∧ (∀ c ∈ (repeatChar 'X' 20).data, c = 'X')) :=
  ⟨by decide, C4_theorem (fun _ s => s) "Connecting" Wheel 20 2 [0, 1] (by decide) []⟩

/-- Claim C5: with a positive configured delay, if the termination
signal wins the race against the delay ticker the loading renderer
exits immediately and writes nothing at all. -/
theorem C5_theorem (prompt : String) (steps : List String) (delay : Nat)
    (h : 0 < delay) (k : Nat) (msg : CtrlMsg) :
    renderLoading prompt steps delay .signalFirst k msg = [] := by
  unfold renderLoading
  rw [if_pos h]

/-- Claim C5, witness: the spec scenario with a 500ms delay. -/
theorem C5_witness :
    0 < 500
    ∧ renderLoading "Pinging" Wheel 500 .signalFirst 3 .success = [] :=
  ⟨by decide, C5_theorem "Pinging" Wheel 500 (by decide) 3 .success⟩

/-- Claim C6: on a Loading controller Fail sends the very same signal
as Success, the loading write trace does not depend on the received
control value, and the terminal action of the visible loop is always
the erase write: overwrite the line with spaces of length
len(firstFrame) + len(label) + 3, emit a line break, and exit. -/
theorem C6_theorem (prompt : String) (steps : List String) (h : ¬ steps = [])
    (delay k : Nat) (gate : Gate) :
    failSend .loading = successSend .loading
    ∧ (∀ m₁ m₂, renderLoading prompt steps delay gate k m₁ =
        renderLoading prompt steps delay gate k m₂)
    ∧ (loadingLoopWrites prompt steps k).getLast? = some (loadingErase prompt steps)
    ∧ loadingErase prompt steps =
        "\x1b[?25l\r" ++ repeatChar ' ' (loadingEraseLen prompt steps) ++ "\r\n"
    ∧ (repeatChar ' ' (loadingEraseLen prompt steps)).length =
        utf8Len (steps.headD "") + utf8Len prompt + 3 := by
  refine ⟨rfl, fun m₁ m₂ => rfl, ?_, rfl, ?_⟩
  · unfold loadingLoopWrites
    rw [List.getLast?_concat]
  · rw [repeatChar_length]
    rfl

/-- Claim C6, witness with the Wheel frames and label "Pinging". -/
theorem C6_witness :
    ¬ Wheel = []
    ∧ (failSend .loading = successSend .loading
       ∧ (∀ m₁ m₂, renderLoading "Pinging" Wheel 500 .timerFirst 2 m₁ =
           renderLoading "Pinging" Wheel 500 .timerFirst 2 m₂)
       ∧ (loadingLoopWrites "Pinging" Wheel 2).getLast? =
           some (loadingErase "Pinging" Wheel)
       ∧ loadingErase "Pinging" Wheel =
           "\x1b[?25l\r" ++ repeatChar ' ' (loadingEraseLen "Pinging" Wheel) ++ "\r\n"
       ∧ (repeatChar ' ' (loadingEraseLen "Pinging" Wheel)).length =
           utf8Len (Wheel.headD "") + utf8Len "Pinging" + 3) :=
  ⟨by decide, C6_theorem "Pinging" Wheel (by decide) 500 2 .timerFirst⟩

/-- Claim C7: frame selection is cyclic — the frame looked up at
iteration i is the element at index i mod n, so the spinner and
loading frames drawn at iteration i+n repeat those at iteration i. -/
theorem C7_theorem (steps : List String) (h : ¬ steps = []) (i : Nat) (prompt : String) :
    spinLookup i steps = steps.getD (i % steps.length) ""
    ∧ spinLookup (i + steps.length) steps = spinLookup i steps
    ∧ spinnerLoopFrame prompt steps (i + steps.length) = spinnerLoopFrame prompt steps i
    ∧ loadingLoopFrame prompt steps (i + steps.length) = loadingLoopFrame prompt steps i := by
  have hcyc : spinLookup (i + steps.length) steps = spinLookup i steps := by
    unfold spinLookup
    rw [Nat.add_mod_right]
  refine ⟨rfl, hcyc, ?_, ?_⟩
  · unfold spinnerLoopFrame; rw [hcyc]
  · unfold loadingLoopFrame; rw [hcyc]

/-- Claim C7, witness on the Wheel frames at iteration 1. -/
theorem C7_witness :
    ¬ Wheel = []
    ∧ (spinLookup 1 Wheel = Wheel.getD (1 % Wheel.length) ""
       ∧ spinLookup (1 + Wheel.length) Wheel = spinLookup 1 Wheel
       ∧ spinnerLoopFrame "Connecting" Wheel (1 + Wheel.length) =
           spinnerLoopFrame "Connecting" Wheel 1
       ∧ loadingLoopFrame "Connecting" Wheel (1 + Wheel.length) =
           loadingLoopFrame "Connecting" Wheel 1) :=
  ⟨by decide, C7_theorem Wheel (by decide) 1 "Connecting"⟩

/-- Claim C8: Start on a Bar controller makes the numeric channel with
buffer depth 2, launches one rendering task, and sends the initial 0.0
without blocking (the channel is empty, so the send is accepted); two
values can queue on a fresh depth-2 channel without blocking and a
third send blocks; the initial 0.0 renders as a 0-fill frame. -/
theorem C8_theorem (v w u : ℚ) (W : Nat) :
    startBar = some ⟨⟨2, [0]⟩, 1⟩
    ∧ chanSend (chanMake ℚ 2) v = some ⟨2, [v]⟩
    ∧ chanSend (⟨2, [v]⟩ : GoChan ℚ) w = some ⟨2, [v, w]⟩
    ∧ chanSend (⟨2, [v, w]⟩ : GoChan ℚ) u = none
    ∧ barEqLen 0 W = 0 := by
  refine ⟨rfl, ?_, ?_, ?_, ?_⟩
  · simp [chanSend, chanMake]
  · simp [chanSend]
  · simp [chanSend]
  · simp [barEqLen, goTrunc]

/-- Claim C9: each spinner loop iteration i below the signal draws the
line hide-cursor, carriage return, label, and the cyclic frame in
brackets; the tick is a fixed 100ms; and the dot budget computed from
the label is max(3, displayWidth - len(label)). -/
theorem C9_theorem (st : StyleFn) (prompt : String) (steps : List String)
    (k i : Nat) (hi : i < k) (msg : CtrlMsg) (displayLength : ℤ) :
    (renderSpinner st prompt steps k msg)[i]? =
      some ("\x1b[?25l\r" ++ prompt ++ "[" ++ spinLookup i steps ++ "]")
    ∧ spinnerTickMs = 100
    ∧ spinnerDotLen displayLength prompt =
        max 3 (displayLength - (utf8Len prompt : ℤ)) := by
  refine ⟨?_, rfl, ?_⟩
  · unfold renderSpinner
    rw [List.getElem?_append]
    rw [if_pos (by simpa using hi)]
    rw [List.getElem?_map, List.getElem?_range hi]
    rfl
  · unfold spinnerDotLen
    split
    · exact (max_eq_left (by omega)).symm
    · exact (max_eq_right (by omega)).symm

/-- Claim C9, witness: second poll of a Wheel spinner, width 30. -/
theorem C9_witness :
    1 < 2
    ∧ ((renderSpinner (fun _ s => s) "Connecting" Wheel 2 .success)[1]? =
        some ("\x1b[?25l\r" ++ "Connecting" ++ "[" ++ spinLookup 1 Wheel ++ "]")
       ∧ spinnerTickMs = 100
       ∧ spinnerDotLen 30 "Connecting" = max 3 (30 - (utf8Len "Connecting" : ℤ))) :=
  ⟨by decide, C9_theorem (fun _ s => s) "Connecting" Wheel 2 1 (by decide) .success 30⟩

/-- Claim C10: every loading write (escape-free label and frames)
starts with hide-cursor and never contains show-cursor — in particular
the erase write begins with hide-cursor and the renderer exits without
restoring the cursor — while the spinner terminal frame starts with
show-cursor and the bar renderer's last terminal write is show-cursor
followed by the final newline. -/
theorem C10_theorem (st : StyleFn) (prompt : String) (steps : List String) (W : Nat)
    (hp : '\x1b' ∉ prompt.data) (hs : ∀ f ∈ steps, '\x1b' ∉ f.data)
    (delay k : Nat) (gate : Gate) (msg : CtrlMsg) :
    (∀ w ∈ renderLoading prompt steps delay gate k msg,
        (∃ t, w.data = "\x1b[?25l".data ++ t)
        ∧ ¬ ∃ s t, w.data = s ++ ("\x1b[?25h".data ++ t))
    ∧ (∃ t, (loadingErase prompt steps).data = "\x1b[?25l".data ++ t)
    ∧ (∀ m, ∃ t, (spinnerTerminalFrame st prompt m).data = "\x1b[?25h".data ++ t)
    ∧ (renderBar st prompt W ((-1 : ℚ) :: [])).getLast? = some "\x1b[?25h\n"
    ∧ (renderBar st prompt W ((-2 : ℚ) :: [])).getLast? = some "\x1b[?25h\n" := by
  refine ⟨?_, ⟨_, loadingErase_data prompt steps⟩, ?_, ?_, ?_⟩
  · intro w hw
    unfold renderLoading at hw
    by_cases hd : 0 < delay
    · rw [if_pos hd] at hw
      cases gate with
      | signalFirst => exact absurd hw (List.not_mem_nil w)
      | timerFirst => exact loading_write_shape prompt steps hp hs k w hw
    · rw [if_neg hd] at hw
      exact loading_write_shape prompt steps hp hs k w hw
  · intro m
    cases m with
    | success =>
      refine ⟨'\r' :: (prompt.data ++ ("[".data ++ ((st .green "OK").data ++ "]\n".data))), ?_⟩
      simp only [spinnerTerminalFrame, data_append, show_r_split, List.append_assoc,
        List.singleton_append, List.cons_append, List.nil_append]
    | fail =>
      refine ⟨'\r' :: (prompt.data ++ ("[".data ++ ((st .red "FAIL").data ++ "]\n".data))), ?_⟩
      simp only [spinnerTerminalFrame, data_append, show_r_split, List.append_assoc,
        List.singleton_append, List.cons_append, List.nil_append]
  · simp [renderBar, barShowCursorNl]
  · norm_num [renderBar, barShowCursorNl]

/-- Claim C10, witness on label "Pinging" and the Wheel frames. -/
theorem C10_witness :
    ('\x1b' ∉ "Pinging".data)
    ∧ (∀ f ∈ Wheel, '\x1b' ∉ f.data)
    ∧ ((∀ w ∈ renderLoading "Pinging" Wheel 500 .timerFirst 2 .success,
          (∃ t, w.data = "\x1b[?25l".data ++ t)
          ∧ ¬ ∃ s t, w.data = s ++ ("\x1b[?25h".data ++ t))
       ∧ (∃ t, (loadingErase "Pinging" Wheel).data = "\x1b[?25l".data ++ t)
       ∧ (∀ m, ∃ t, (spinnerTerminalFrame (fun _ s => s) "Pinging" m).data =
           "\x1b[?25h".data ++ t)
       ∧ (renderBar (fun _ s => s) "Pinging" 20 ((-1 : ℚ) :: [])).getLast? =
           some "\x1b[?25h\n"
       ∧ (renderBar (fun _ s => s) "Pinging" 20 ((-2 : ℚ) :: [])).getLast? =
           some "\x1b[?25h\n") :=
  ⟨by decide, by decide,
    C10_theorem (fun _ s => s) "Pinging" Wheel 20 (by decide) (by decide)
      500 2 .timerFirst .success⟩

end Clt
